import Mathlib

/-!
Verification of the DataMate-Ops pathology preprocessing operator
(`patho_sys_preprocess/process.py`, class `PathoSysPreprocess`).

The embedding models, faithfully to the source:
  * python `pathlib.PurePosixPath` normalization (`PyPath`, `pyPath`, `pathStr`),
  * the string helpers used by the source (`strip`, `startswith`,
    `str.replace(old, new, 1)`, `split(":", 1)`),
  * `transform_path` with its three modes,
  * `data_processing` (row filtering + path rewriting) over merged tables,
  * `insert_into_dataset` batching, and
  * the `execute` orchestration including its exception behavior.

Machine-level details that cannot influence the verified claims (exact log
text, the HTTP wire format, pandas JSON escaping) are abstracted; every
control-flow decision of the source is kept.
-/

/-- Errors raised by the modelled python code. `ioError` stands for any
exception coming out of a filesystem/CSV-loading call. -/
inductive PyErr where
  | valueError
  | typeError
  | keyError
  | ioError
  | userError
deriving Repr, DecidableEq

/-! ### Python string helpers (structural, kernel-computable) -/

/-- Whitespace characters removed by python `str.strip()` (the common ones;
exotic unicode whitespace is not needed by any claim). -/
def isSpaceChar (c : Char) : Bool :=
  c = ' ' || c = '\t' || c = '\n' || c = '\r'

/-- Models python `not s.strip()`: true iff every character is whitespace. -/
def pyBlank (s : String) : Bool :=
  s.data.all isSpaceChar

/-- Models python `prefix in s` for a single character. -/
def pyContainsChar (s : String) (c : Char) : Bool :=
  s.data.contains c

/-- Models python `s.startswith(pre)`. -/
def pyStartsWith (s pre : String) : Bool :=
  pre.data.isPrefixOf s.data

/-- Models python `s.endswith(suf)`. -/
def pyEndsWith (s suf : String) : Bool :=
  suf.data.isSuffixOf s.data

/-- Models python `s[n:]` (slicing off the first `n` characters). -/
def pyDrop (s : String) (n : Nat) : String :=
  ⟨s.data.drop n⟩

/-- Models python `s.split(":", 1)` when `":" in s`:
the text before the first `':'` and everything after it. -/
def pySplitColon1 (s : String) : String × String :=
  let pre := s.data.takeWhile (fun c => c ≠ ':')
  (⟨pre⟩, ⟨s.data.drop (pre.length + 1)⟩)

/-- One step of python `s.replace(old, new, 1)` for nonempty `old`:
scan left to right for the first occurrence of `old` and splice in `new`. -/
def replaceFirstAux (new old : List Char) : List Char → List Char
  | [] => []
  | c :: rest =>
    if old.isPrefixOf (c :: rest) then new ++ (c :: rest).drop old.length
    else c :: replaceFirstAux new old rest

/-- Models python `s.replace(old, new, 1)`.
For `old = ""` python inserts `new` once at the front. -/
def pyReplaceFirst (s old new : String) : String :=
  if old.data.isEmpty then ⟨new.data ++ s.data⟩
  else ⟨replaceFirstAux new.data old.data s.data⟩

/-! ### `pathlib.PurePosixPath` model -/

/-- A parsed POSIX pure path: the root (`""`, `"/"`, or `"//"` — pathlib keeps
exactly two leading slashes special) and the non-empty, non-`"."` components. -/
structure PyPath where
  root : String
  parts : List String
deriving Repr, DecidableEq

/-- Split a character list on `'/'`. -/
def splitSlashAux (acc : List Char) : List Char → List (List Char)
  | [] => [acc.reverse]
  | c :: rest =>
    if c = '/' then acc.reverse :: splitSlashAux [] rest
    else splitSlashAux (c :: acc) rest

/-- Models `PurePosixPath(s)`: parse and normalize (drop empty and `"."`
components, detect the `/` or `//` root). -/
def pyPath (s : String) : PyPath :=
  let root :=
    if ['/', '/'].isPrefixOf s.data && !(['/', '/', '/'].isPrefixOf s.data) then "//"
    else if ['/'].isPrefixOf s.data then "/"
    else ""
  ⟨root, ((splitSlashAux [] s.data).map (fun l => (⟨l⟩ : String))).filter
      (fun c => c ≠ "" && c ≠ ".")⟩

/-- Join components with `'/'`. -/
def joinSlash : List String → String
  | [] => ""
  | [p] => p
  | p :: rest => p ++ "/" ++ joinSlash rest

/-- Models `str(p)` for a `PurePosixPath`: the root followed by the
components; a rootless empty path prints as `"."`. -/
def pathStr (p : PyPath) : String :=
  if p.root = "" then (if p.parts.isEmpty then "." else joinSlash p.parts)
  else p.root ++ joinSlash p.parts

/-- Models `p.is_absolute()` on POSIX: a path with a root. -/
def pyIsAbsolute (p : PyPath) : Bool :=
  p.root ≠ ""

/-- Models the `/` operator on pure paths: an absolute right operand wins,
otherwise components are appended. -/
def pyJoin (a b : PyPath) : PyPath :=
  if pyIsAbsolute b then b else ⟨a.root, a.parts ++ b.parts⟩

/-- Models `p.relative_to(p.anchor)` as used at process.py:207: the path with
its root anchor stripped. -/
def relativeToAnchor (p : PyPath) : PyPath :=
  ⟨"", p.parts⟩

/-- Models `p.name`: the final component, `""` for a bare root or empty path. -/
def pyName (p : PyPath) : String :=
  p.parts.getLast?.getD ""

/-! ### `PathoSysPreprocess.transform_path` (process.py:173-207)

The operator stores `self.path_transformer = Path(kwargs.get('pathTransformer',
'/mnt/ruipath/hospital_data/'))` (process.py:35); `transform_path` starts from
`transform_rule = str(self.path_transformer)`. -/

/-- Embedding of `PathoSysPreprocess.transform_path`. `path_transformer` is
the stored `Path` object; `known_path` the incoming path string. -/
def transform_path (path_transformer : PyPath) (known_path : String) : String :=
  let transform_rule := pathStr path_transformer
  -- `if not transform_rule.strip(): return known_path`  (identity mode)
  if pyBlank transform_rule then known_path
  else
    let known_p := pyPath known_path
    -- `if ":" in transform_rule:`  (prefix-substitution mode)
    if pyContainsChar transform_rule ':' then
      -- `old_prefix, new_prefix = transform_rule.split(":", 1)` — with a ':'
      -- present this always unpacks, so the `except ValueError` arm is dead
      let old_prefix := (pySplitColon1 transform_rule).1
      let new_prefix := (pySplitColon1 transform_rule).2
      let path_str := pathStr known_p
      if pyStartsWith path_str old_prefix then
        pathStr (pyPath (pyReplaceFirst path_str old_prefix new_prefix))
      else
        -- warning printed, path returned unchanged
        known_path
    else
      -- mount-point mode (process.py:205-207)
      let new_parent := pyPath transform_rule
      if pyIsAbsolute known_p then pathStr (pyJoin new_parent (relativeToAnchor known_p))
      else pathStr (pyJoin new_parent known_p)

/-- The default `pathTransformer` configuration, as stored (process.py:35). -/
def defaultPathTransformer : PyPath :=
  pyPath "/mnt/ruipath/hospital_data/"

/-! ### Table model

`none` in an `Option String` cell models a pandas NaN/null. The column-presence
flags model whether the corresponding CSV column exists: a pandas access to a
missing column raises `KeyError`. -/

/-- A row of the diagnosis CSV (only the required columns are relevant). -/
structure DiagRow where
  case_no : String
  diagnosis : String
deriving Repr, DecidableEq

/-- The diagnosis table with its column-presence flags. -/
structure DiagTable where
  hasCaseNo : Bool
  hasDiagnosis : Bool
  rows : List DiagRow
deriving Repr, DecidableEq

/-- A row of the slide CSV. `thumbnail_path` is meaningful only when the
table's `hasThumbnailPath` flag is set. -/
structure SlideRow where
  case_no : String
  slide_path : Option String
  thumbnail_path : Option String
deriving Repr, DecidableEq

/-- The slide table with its column-presence flags. -/
structure SlideTable where
  hasCaseNo : Bool
  hasSlidePath : Bool
  hasThumbnailPath : Bool
  rows : List SlideRow
deriving Repr, DecidableEq

/-- A row of the merged frame. -/
structure MergedRow where
  case_no : String
  diagnosis : String
  slide_path : Option String
  thumbnail_path : Option String
deriving Repr, DecidableEq

/-- The merged frame; `hasThumbCol` records whether the `thumbnail_path`
column exists (it is inherited from the slide table). -/
structure MergedTable where
  hasThumbCol : Bool
  rows : List MergedRow
deriving Repr, DecidableEq

/-- Embedding of `pd.merge(diagnosis_df, slide_info_df, on="case_no",
how="inner")` (process.py:97): every pair of rows agreeing on `case_no`. -/
def mergeTables (d : DiagTable) (s : SlideTable) : MergedTable :=
  ⟨s.hasThumbnailPath,
   d.rows.flatMap (fun dr =>
     (s.rows.filter (fun sr => sr.case_no == dr.case_no)).map
       (fun sr => ⟨dr.case_no, dr.diagnosis, sr.slide_path, sr.thumbnail_path⟩))⟩

/-! ### `PathoSysPreprocess.data_processing` (process.py:137-171) -/

/-- The first filter (process.py:148): keep rows whose `slide_path` is
non-null and non-empty. -/
def slidePathPresent (r : MergedRow) : Bool :=
  match r.slide_path with
  | some s => s ≠ ""
  | none => false

/-- Is the row an SDPC asset: `slide_path` ends with `'.sdpc'`
(pandas `.str.endswith`). -/
def isSdpcRow (r : MergedRow) : Bool :=
  match r.slide_path with
  | some s => pyEndsWith s ".sdpc"
  | none => false

/-- The row's `thumbnail_path` is null or empty (process.py:156). -/
def thumbMissing (r : MergedRow) : Bool :=
  match r.thumbnail_path with
  | some t => t = ""
  | none => true

/-- The filter stage of `data_processing` (process.py:148-156), meaningful
when the `thumbnail_path` column exists (otherwise line 155 raises — handled
in `data_processing`). -/
def filterStage (ignore_sdpc : Bool) (rows : List MergedRow) : List MergedRow :=
  let rows1 := rows.filter slidePathPresent
  if ignore_sdpc then
    rows1.filter (fun r => !isSdpcRow r)
  else
    rows1.filter (fun r => !(isSdpcRow r && thumbMissing r))

/-- The per-row path rewrite (process.py:160-165). The filter stage
guarantees `slide_path` is non-null here; `pd.notna("")` is true, so a blank
(empty-string) thumbnail IS passed through `transform_path`, and only a null
thumbnail is replaced by the empty string. -/
def pyTransformRow (ptf : PyPath) (r : MergedRow) : MergedRow :=
  { r with
    slide_path := r.slide_path.map (transform_path ptf),
    thumbnail_path := some (match r.thumbnail_path with
      | some t => transform_path ptf t
      | none => "") }

/-- The extension-point filter (process.py:39-47): a no-op pass-through. -/
def extra_filters (rows : List MergedRow) : List MergedRow :=
  rows

/-- Embedding of `PathoSysPreprocess.data_processing`.

Exception behavior, traced from pandas:
  * with `ignore_sdpc = false` and no `thumbnail_path` column, line 155
    (`df["thumbnail_path"]`) raises `KeyError`;
  * when the filtered frame is empty, `df.apply(..., result_type='expand')`
    returns a copy of the frame with ALL its (3+) columns, and the two-column
    assignment `df[["slide_path", "thumbnail_path"]] = ...` raises
    `ValueError: Columns must be same length as key`;
  * when the filtered frame is non-empty and the `thumbnail_path` column is
    missing, the apply lambda's `row["thumbnail_path"]` raises `KeyError`. -/
def data_processing (ptf : PyPath) (ignore_sdpc : Bool) (t : MergedTable) :
    Except PyErr MergedTable :=
  if !ignore_sdpc && !t.hasThumbCol then .error .keyError
  else
    let rows := filterStage ignore_sdpc t.rows
    if rows.isEmpty then .error .valueError
    else if !t.hasThumbCol then .error .keyError
    else .ok ⟨t.hasThumbCol, extra_filters (rows.map (pyTransformRow ptf))⟩

/-! ### `PathoSysPreprocess.insert_into_dataset` (process.py:209-269) -/

/-- The two record kinds posted per batch. -/
inductive RecKind where
  | slide
  | thumb
deriving Repr, DecidableEq

/-- One attempted POST: which contiguous slice of the frame, which record
kind, and whether the POST succeeded (failures are caught and logged). -/
structure UploadEvent where
  start_idx : Nat
  end_idx : Nat
  kind : RecKind
  batch : List MergedRow
  succeeded : Bool
deriving Repr, DecidableEq

/-- Models python `range(0, stop, step)` for `step > 0`. -/
def pyRangeStep (stop step : Nat) : List Nat :=
  (List.range ((stop + step - 1) / step)).map (fun i => i * step)

/-- Embedding of `insert_into_dataset`. `postOk start isThumb` is the
environment's answer to the POST for the batch starting at `start`
(`false` models any HTTP/network/status failure — all are caught, logged and
skipped, process.py:237-267). Returns the attempted uploads and, per line
269, the input frame unchanged. -/
def insert_into_dataset (postOk : Nat → Bool → Bool) (rows : List MergedRow) :
    List UploadEvent × List MergedRow :=
  let events := (pyRangeStep rows.length 1000).flatMap (fun start =>
    let endIdx := min (start + 1000) rows.length
    let batch := (rows.drop start).take (endIdx - start)
    [⟨start, endIdx, .slide, batch, postOk start false⟩,
     ⟨start, endIdx, .thumb, batch, postOk start true⟩])
  (events, rows)

/-! ### `PathoSysPreprocess.execute` (process.py:49-135) -/

/-- A python value stored in the sample mapping: a string, or some other
object of which only truthiness matters to `execute`. -/
inductive PyVal where
  | str (s : String)
  | other (truthy : Bool)
deriving Repr, DecidableEq

/-- Python truthiness of an optional mapping entry (`None`/missing is falsy,
a string is truthy iff non-empty). -/
def pyTruthy : Option PyVal → Bool
  | none => false
  | some (.str s) => s ≠ ""
  | some (.other b) => b

/-- The sample descriptor. `rest` carries every other key untouched. -/
structure Sample where
  filePath : Option PyVal
  export_path : Option PyVal
  text : Option PyVal
  fileName : Option PyVal
  fileType : Option PyVal
  rest : List (String × PyVal)
deriving Repr, DecidableEq

/-- The environment an `execute` run interacts with. -/
structure World where
  /-- outcome of `pd.read_csv(diagnosis_file_path)` (process.py:72) -/
  diagnosisRead : Except PyErr DiagTable
  /-- outcome of `os.listdir(diagnosis_file_dir)` (process.py:79) -/
  listdirResult : Except PyErr (List String)
  /-- outcome of `pd.read_csv` on the first sibling file (process.py:84) -/
  slideRead : Except PyErr SlideTable
  /-- outcome of each POST in `insert_into_dataset` -/
  postOk : Nat → Bool → Bool

/-- Minimal JSON string escaping (backslash and double quote). -/
def jsonEscape (s : String) : String :=
  ⟨s.data.flatMap (fun c => if c = '\\' || c = '"' then ['\\', c] else [c])⟩

/-- A JSON string or `null` for an optional cell. -/
def jsonCell : Option String → String
  | some s => "\"" ++ jsonEscape s ++ "\""
  | none => "null"

/-- Models `merged_df.to_json(orient="records", ...)` (process.py:129) up to
whitespace: one object per row. -/
def rowsToJson (rows : List MergedRow) : String :=
  "[" ++ joinSlash [] ++
    (joinSlash (rows.map (fun r =>
      "\x7b\"case_no\":" ++ jsonCell (some r.case_no) ++
      ",\"diagnosis\":" ++ jsonCell (some r.diagnosis) ++
      ",\"slide_path\":" ++ jsonCell r.slide_path ++
      ",\"thumbnail_path\":" ++ jsonCell r.thumbnail_path ++ "\x7d"))) ++ "]"

/-- The outcome of a normally-terminating `execute` run: whether the final
descriptor-update stage (process.py:129-131) ran, and the returned sample. -/
structure ExecResult where
  completed : Bool
  sample : Sample
deriving Repr, DecidableEq

/-- Embedding of `PathoSysPreprocess.execute`.

`ptf` / `ignoreSdpc` are the constructor configuration; the run-level
SDPC flag is forced on when the slide table lacks a `thumbnail_path` column
(process.py:87-89). `.error` models an exception propagating to the caller:
only the three `filePath` validations raise deliberately, but the two
`pd.read_csv` calls and `os.listdir` are not wrapped in any `try`, so their
failures propagate as well (only the `IndexError` of an empty sibling list is
caught, process.py:80). -/
def execute (ptf : PyPath) (ignoreSdpc : Bool) (w : World) (sample : Sample) :
    Except PyErr ExecResult :=
  match sample.filePath with
  | none => .error .valueError
  | some v =>
    if !pyTruthy (some v) then .error .valueError
    else
      match v with
      | .other _ => .error .typeError
      | .str file_path =>
        if !pyEndsWith file_path ".csv" then .error .valueError
        else
          let diagnosis_file_name := pyName (pyPath file_path)
          match w.diagnosisRead with
          | .error e => .error e
          | .ok diagnosis_df =>
            if !(diagnosis_df.hasCaseNo && diagnosis_df.hasDiagnosis) then
              .ok ⟨false, sample⟩
            else
              match w.listdirResult with
              | .error e => .error e
              | .ok files =>
                match files.filter (fun f => f ≠ diagnosis_file_name) with
                | [] => .ok ⟨false, sample⟩
                | _ :: _ =>
                  match w.slideRead with
                  | .error e => .error e
                  | .ok slide_info_df =>
                    if !(slide_info_df.hasCaseNo && slide_info_df.hasSlidePath) then
                      .ok ⟨false, sample⟩
                    else
                      let ignore :=
                        if !slide_info_df.hasThumbnailPath then true else ignoreSdpc
                      let merged := mergeTables diagnosis_df slide_info_df
                      match data_processing ptf ignore merged with
                      | .error _ => .ok ⟨false, sample⟩
                      | .ok processed =>
                        if !pyTruthy sample.export_path then .ok ⟨false, sample⟩
                        else
                          match sample.export_path with
                          | some (.str _) =>
                            let outRows :=
                              (insert_into_dataset w.postOk processed.rows).2
                            .ok ⟨true,
                              { sample with
                                text := some (.str (rowsToJson outRows)),
                                fileName := some (.str "case_diagnosis_slides.json"),
                                fileType := some (.str "json") }⟩
                          | _ => .ok ⟨false, sample⟩

/-! ### Concrete data used by witnesses and counterexamples -/

/-- A well-formed input descriptor, as the demo harness builds one. -/
def sampleValid : Sample :=
  ⟨some (.str "dataset/source/diag.csv"), some (.str "dataset/output"),
   some (.str ""), some (.str "diag.csv"), some (.str "csv"),
   [("fileId", .str "1234567890")]⟩

/-- The same descriptor with no `filePath` key. -/
def sampleNoFile : Sample :=
  { sampleValid with filePath := none }

/-- A diagnosis table with the required columns and one case. -/
def diagT1 : DiagTable :=
  ⟨true, true, [⟨"c1", "dx"⟩]⟩

/-- A diagnosis table missing the `case_no` column. -/
def diagNoCols : DiagTable :=
  ⟨false, true, []⟩

/-- A slide table WITHOUT a `thumbnail_path` column, holding one regular
slide and one SDPC slide for the shared case. -/
def slideNoThumb : SlideTable :=
  ⟨true, true, false, [⟨"c1", some "a.svs", none⟩, ⟨"c1", some "b.sdpc", none⟩]⟩

/-- A slide table WITH a `thumbnail_path` column. -/
def slideWithThumb : SlideTable :=
  ⟨true, true, true, [⟨"c1", some "a.svs", some "t.png"⟩]⟩

/-- Environment for a fully healthy run. -/
def worldOk : World :=
  ⟨.ok diagT1, .ok ["slides.csv"], .ok slideWithThumb, fun _ _ => true⟩

/-- Environment whose slide table lacks the `thumbnail_path` column. -/
def worldNoThumbCol : World :=
  ⟨.ok diagT1, .ok ["slides.csv"], .ok slideNoThumb, fun _ _ => true⟩

/-- Environment where loading the diagnosis CSV fails (file missing or
malformed). -/
def worldDiagReadFails : World :=
  ⟨.error .ioError, .ok ["slides.csv"], .ok slideWithThumb, fun _ _ => true⟩

/-- Environment whose diagnosis table lacks required columns. -/
def worldDiagNoCols : World :=
  ⟨.ok diagNoCols, .ok ["slides.csv"], .ok slideWithThumb, fun _ _ => true⟩

/-- A merged row whose `thumbnail_path` is the BLANK string (non-null). -/
def rowBlankThumb : MergedRow :=
  ⟨"c1", "dx", some "a.svs", some ""⟩

/-- An SDPC merged row with a usable thumbnail. -/
def rowSdpcThumb : MergedRow :=
  ⟨"c1", "dx", some "a.sdpc", some "t.png"⟩

/-- The input-contract predicate of `execute` (process.py:56-62): `filePath`
present, a non-empty string, ending in `.csv`. -/
def validFilePath (s : Sample) : Prop :=
  ∃ fp, s.filePath = some (.str fp) ∧ fp ≠ "" ∧ pyEndsWith fp ".csv" = true

/-! ### Claim theorems -/

/-- C3: when the stored path-transform rule is blank after trimming
(identity mode), `transform_path` returns the input path unchanged. -/
theorem transform_path_identity (r : PyPath) (p : String)
    (h : pyBlank (pathStr r) = true) : transform_path r p = p := by
  unfold transform_path
  simp [h]

/-- Witness for `transform_path_identity`: the rule `" "` stores as the
blank path `" "`, and a concrete path is returned unchanged. -/
theorem transform_path_identity_witness :
    pyBlank (pathStr (pyPath " ")) = true ∧
      transform_path (pyPath " ") "/data/a.svs" = "/data/a.svs" :=
  ⟨by decide, transform_path_identity (pyPath " ") "/data/a.svs" (by decide)⟩

/-- C10: the configured `pathTransformer` string is stored Path-normalized.
An empty configured rule is stored as `"."`, which is not blank and has no
colon, so it selects the mount-point branch (an absolute path gets its anchor
stripped rather than being returned unchanged); and a prefix rule whose new
prefix ends in `/` loses that trailing slash, so substitution concatenates
the new prefix directly onto the remainder of the path. -/
theorem pathTransformer_normalization_effects :
    pathStr (pyPath "") = "." ∧
    pyBlank "." = false ∧
    pyContainsChar "." ':' = false ∧
    transform_path (pyPath "") "/a/b" = "a/b" ∧
    pathStr (pyPath "storage/:/mnt/data/") = "storage/:/mnt/data" ∧
    pySplitColon1 "storage/:/mnt/data" = ("storage/", "/mnt/data") ∧
    transform_path (pyPath "storage/:/mnt/data/") "storage/x" = "/mnt/datax" := by
  refine ⟨rfl, rfl, rfl, rfl, rfl, rfl, rfl⟩

/-- C5 counterexample: with rule `storage:/mnt`, the path `./storage/x` does
NOT start with `storage`, yet `transform_path` rewrites it to `/mnt/x`
(the startswith test runs on the normalized `storage/x`, not on the original
path), contradicting the claim that such a path is returned unchanged. -/
theorem transform_path_prefix_counterexample :
    pyStartsWith "./storage/x" "storage" = false ∧
    transform_path (pyPath "storage:/mnt") "./storage/x" = "/mnt/x" ∧
    transform_path (pyPath "storage:/mnt") "./storage/x" ≠ "./storage/x" := by
  refine ⟨rfl, rfl, by decide⟩

/-- A guarded first-occurrence replacement is a prefix splice: when `old` is
a prefix of `q`, python `q.replace(old, new, 1)` is `new` followed by the
rest of `q`. -/
theorem pyReplaceFirst_of_startsWith (q old new : String)
    (h : pyStartsWith q old = true) :
    pyReplaceFirst q old new = new ++ pyDrop q old.length := by
  unfold pyReplaceFirst
  by_cases ho : old.data.isEmpty
  · have hnil : old.data = [] := by
      cases hd : old.data with
      | nil => rfl
      | cons a as => rw [hd] at ho; simp at ho
    simp only [ho, if_true]
    show (⟨new.data ++ q.data⟩ : String) = new ++ pyDrop q old.length
    have : old.length = 0 := by
      show old.data.length = 0
      rw [hnil]; rfl
    rw [this]
    rfl
  · rw [if_neg ho]
    unfold pyStartsWith at h
    cases q with
    | mk qd =>
      cases qd with
      | nil =>
        cases hol : old.data with
        | nil => rw [hol] at ho; simp at ho
        | cons a as => rw [hol] at h; simp [List.isPrefixOf] at h
      | cons c cs =>
        show (⟨replaceFirstAux new.data old.data (c :: cs)⟩ : String)
          = new ++ pyDrop ⟨c :: cs⟩ old.length
        unfold replaceFirstAux
        rw [if_pos h]
        rfl

/-- C5 (amended): for a rule containing `:` split on the first `:` into
`(old, new)`, and for `q = str(Path(p))` the Path-normalized form of `p`:
if `q` starts with `old`, the result is the Path-normalization of `q` with
its `old` prefix replaced by `new` (the first occurrence); if `q` does not
start with `old`, the original `p` is returned unchanged. The test and the
substitution run on the normalized `q`, not on `p` verbatim. -/
theorem transform_path_prefix_amended (r : PyPath) (p old new : String)
    (hblank : pyBlank (pathStr r) = false)
    (hc : pyContainsChar (pathStr r) ':' = true)
    (hsplit : pySplitColon1 (pathStr r) = (old, new)) :
    (pyStartsWith (pathStr (pyPath p)) old = true →
      transform_path r p =
        pathStr (pyPath (new ++ pyDrop (pathStr (pyPath p)) old.length))) ∧
    (pyStartsWith (pathStr (pyPath p)) old = false → transform_path r p = p) := by
  constructor <;> intro hs
  · unfold transform_path
    simp only [hblank, hc, hsplit, hs, Bool.false_eq_true, if_false, if_true]
    simp [pyReplaceFirst_of_startsWith _ _ _ hs]
  · unfold transform_path
    simp [hblank, hc, hsplit, hs]

/-- Witness for `transform_path_prefix_amended`: both branches at concrete
inputs. -/
theorem transform_path_prefix_amended_witness :
    (pySplitColon1 (pathStr (pyPath "storage:/mnt")) = ("storage", "/mnt") ∧
      transform_path (pyPath "storage:/mnt") "storage/a.svs" =
        pathStr (pyPath ("/mnt" ++ pyDrop (pathStr (pyPath "storage/a.svs")) "storage".length))) ∧
    transform_path (pyPath "storage:/mnt") "other/a.svs" = "other/a.svs" :=
  ⟨⟨by decide,
    (transform_path_prefix_amended (pyPath "storage:/mnt") "storage/a.svs" "storage" "/mnt"
      (by decide) (by decide) (by decide)).1 (by decide)⟩,
   (transform_path_prefix_amended (pyPath "storage:/mnt") "other/a.svs" "storage" "/mnt"
      (by decide) (by decide) (by decide)).2 (by decide)⟩

/-- C6: in mount-point mode (non-blank rule without `:`), an absolute path is
joined to the mount point with its root anchor stripped, a relative path is
joined verbatim; in both cases the result is the mount point's root and
components followed by the path's components (the absolute anchor never
survives). -/
theorem transform_path_mount (r : PyPath) (p : String)
    (hblank : pyBlank (pathStr r) = false)
    (hc : pyContainsChar (pathStr r) ':' = false) :
    (pyIsAbsolute (pyPath p) = true →
      transform_path r p =
        pathStr (pyJoin (pyPath (pathStr r)) (relativeToAnchor (pyPath p)))) ∧
    (pyIsAbsolute (pyPath p) = false →
      transform_path r p = pathStr (pyJoin (pyPath (pathStr r)) (pyPath p))) ∧
    transform_path r p =
      pathStr ⟨(pyPath (pathStr r)).root,
               (pyPath (pathStr r)).parts ++ (pyPath p).parts⟩ := by
  have habs : ∀ q : PyPath, pyIsAbsolute q = false → q.root = "" := by
    intro q hq
    unfold pyIsAbsolute at hq
    simpa using hq
  refine ⟨?_, ?_, ?_⟩
  · intro hA
    unfold transform_path
    simp [hblank, hc, hA]
  · intro hA
    unfold transform_path
    simp [hblank, hc, hA]
  · unfold transform_path
    simp only [hblank, hc, Bool.false_eq_true, if_false]
    by_cases hA : pyIsAbsolute (pyPath p) = true
    · rw [if_pos hA]
      unfold pyJoin relativeToAnchor
      simp [pyIsAbsolute]
    · rw [if_neg hA]
      have hFalse : pyIsAbsolute (pyPath p) = false := by simpa using hA
      have h0 := habs _ hFalse
      unfold pyJoin
      rw [if_neg (by simp [pyIsAbsolute, h0])]

/-- Witness for `transform_path_mount`: the default mount rule applied to an
absolute and to a relative path. -/
theorem transform_path_mount_witness :
    (pyIsAbsolute (pyPath "/hospital/a.svs") = true ∧
      transform_path defaultPathTransformer "/hospital/a.svs" =
        pathStr (pyJoin (pyPath (pathStr defaultPathTransformer))
          (relativeToAnchor (pyPath "/hospital/a.svs")))) ∧
    (pyIsAbsolute (pyPath "x/y.svs") = false ∧
      transform_path defaultPathTransformer "x/y.svs" =
        pathStr (pyJoin (pyPath (pathStr defaultPathTransformer)) (pyPath "x/y.svs"))) :=
  ⟨⟨by decide,
    (transform_path_mount defaultPathTransformer "/hospital/a.svs"
      (by decide) (by decide)).1 (by decide)⟩,
   ⟨by decide,
    (transform_path_mount defaultPathTransformer "x/y.svs"
      (by decide) (by decide)).2.1 (by decide)⟩⟩

/-- C4: after the filter stage of `data_processing`, every surviving row has
a non-null, non-empty `slide_path`; with the SDPC flag set no SDPC row
survives; with the flag clear an SDPC row survives iff its `thumbnail_path`
is non-null and non-empty. -/
theorem filterStage_spec (ig : Bool) (rows : List MergedRow) (r : MergedRow) :
    (r ∈ filterStage ig rows → slidePathPresent r = true) ∧
    (ig = true → r ∈ filterStage true rows → isSdpcRow r = false) ∧
    (ig = false → r ∈ rows → isSdpcRow r = true →
      (r ∈ filterStage false rows ↔ thumbMissing r = false)) := by
  refine ⟨?_, ?_, ?_⟩
  · intro h
    unfold filterStage at h
    cases ig <;>
      simp only [Bool.false_eq_true, if_false, if_true] at h <;>
      exact (List.mem_filter.mp (List.mem_filter.mp h).1).2
  · intro _ h
    unfold filterStage at h
    simp only [if_true] at h
    have := (List.mem_filter.mp h).2
    simpa using this
  · intro _ hr hsdpc
    have hsp : slidePathPresent r = true := by
      unfold isSdpcRow at hsdpc
      unfold slidePathPresent
      cases hs : r.slide_path with
      | none => rw [hs] at hsdpc; exact absurd hsdpc (by simp)
      | some s =>
        rw [hs] at hsdpc
        rcases eq_or_ne s "" with h0 | h0
        · subst h0; exact absurd hsdpc (by decide)
        · simp [h0]
    constructor
    · intro h
      unfold filterStage at h
      simp only [Bool.false_eq_true, if_false] at h
      have hq := (List.mem_filter.mp h).2
      rw [hsdpc] at hq
      simpa using hq
    · intro htm
      unfold filterStage
      simp only [Bool.false_eq_true, if_false]
      exact List.mem_filter.mpr
        ⟨List.mem_filter.mpr ⟨hr, hsp⟩, by simp [hsdpc, htm]⟩

/-- Witness for `filterStage_spec`: with the flag clear, an SDPC row with a
usable thumbnail survives the filter stage. -/
theorem filterStage_spec_witness :
    isSdpcRow rowSdpcThumb = true ∧ rowSdpcThumb ∈ filterStage false [rowSdpcThumb] :=
  ⟨by decide,
   ((filterStage_spec false [rowSdpcThumb] rowSdpcThumb).2.2 rfl
     (by simp) (by decide)).mpr (by decide)⟩

/-- C7 counterexample: a surviving row whose `thumbnail_path` is the blank
string "" IS passed through the transform (`pd.notna("")` holds): under the
mount rule `/mnt` the blank thumbnail comes out as `/mnt`, not as "". -/
theorem data_processing_blank_thumb_transformed :
    data_processing (pyPath "/mnt") false ⟨true, [rowBlankThumb]⟩ =
      .ok ⟨true, [⟨"c1", "dx", some "/mnt/a.svs", some "/mnt"⟩]⟩ ∧
    (some "/mnt" : Option String) ≠ some "" := by
  refine ⟨rfl, by decide⟩

/-- C7 (amended): `data_processing` applies the transform to the
`slide_path` of every surviving row, and to `thumbnail_path` whenever it is
non-null — including when it is blank; only a null `thumbnail_path` is
carried through untransformed, as the empty string. -/
theorem data_processing_transform_application (ptf : PyPath) (ig : Bool)
    (t tOut : MergedTable) (h : data_processing ptf ig t = .ok tOut) :
    tOut.rows = (filterStage ig t.rows).map (pyTransformRow ptf) ∧
    (∀ r : MergedRow,
      (pyTransformRow ptf r).slide_path = r.slide_path.map (transform_path ptf) ∧
      (pyTransformRow ptf r).thumbnail_path =
        some (match r.thumbnail_path with
          | some u => transform_path ptf u
          | none => "")) := by
  refine ⟨?_, fun r => ⟨rfl, rfl⟩⟩
  unfold data_processing at h
  repeat' split at h
  all_goals simp_all [extra_filters]
  all_goals split at h
  all_goals (first | (injection h with h2; rw [← h2]) | injection h)

/-- Witness for `data_processing_transform_application`: a concrete run with
the default mount rule and a blank thumbnail. -/
theorem data_processing_transform_application_witness :
    data_processing defaultPathTransformer true ⟨true, [rowBlankThumb]⟩ =
      .ok ⟨true, [⟨"c1", "dx", some "/mnt/ruipath/hospital_data/a.svs",
                   some "/mnt/ruipath/hospital_data"⟩]⟩ ∧
    (⟨true, [⟨"c1", "dx", some "/mnt/ruipath/hospital_data/a.svs",
              some "/mnt/ruipath/hospital_data"⟩]⟩ : MergedTable).rows =
      (filterStage true (⟨true, [rowBlankThumb]⟩ : MergedTable).rows).map
        (pyTransformRow defaultPathTransformer) :=
  ⟨rfl,
   (data_processing_transform_application defaultPathTransformer true
      ⟨true, [rowBlankThumb]⟩ _ rfl).1⟩

/-- Summing the constant 2 over a list. -/
theorem sum_map_two {α : Type _} (l : List α) :
    (l.map (fun _ => (2 : Nat))).sum = 2 * l.length := by
  induction l with
  | nil => rfl
  | cons a t ih =>
    simp only [List.map_cons, List.sum_cons, List.length_cons, ih]
    omega

/-- The contiguous `range(0, N, 1000)` batches of a list, each taken with
python slice semantics `iloc[start:min(start+1000, N)]`, concatenate back to
the list itself. -/
theorem pyRangeStep_chunks {α : Type _} (n : Nat) :
    ∀ l : List α, l.length ≤ n →
      (pyRangeStep l.length 1000).flatMap
        (fun s => (l.drop s).take (min (s + 1000) l.length - s)) = l := by
  induction n with
  | zero =>
    intro l h
    have hl : l = [] := List.eq_nil_of_length_eq_zero (Nat.le_zero.mp h)
    subst hl
    simp [pyRangeStep]
  | succ n ih =>
    intro l hl
    rcases Nat.eq_zero_or_pos l.length with h0 | h0
    · have hl0 : l = [] := List.eq_nil_of_length_eq_zero h0
      subst hl0
      simp [pyRangeStep]
    · have hk : (l.length + 1000 - 1) / 1000 = ((l.drop 1000).length + 1000 - 1) / 1000 + 1 := by
        rw [List.length_drop]
        omega
      have ih2 := ih (l.drop 1000) (by rw [List.length_drop]; omega)
      unfold pyRangeStep at ih2 ⊢
      rw [List.flatMap_map] at ih2 ⊢
      rw [hk, List.range_succ_eq_map, List.flatMap_cons, List.flatMap_map]
      have htail : (fun a => List.take ((a.succ * 1000 + 1000) ⊓ l.length - a.succ * 1000)
          (List.drop (a.succ * 1000) l)) =
          (fun a => List.take ((a * 1000 + 1000) ⊓ (List.drop 1000 l).length - a * 1000)
            (List.drop (a * 1000) (List.drop 1000 l))) := by
        funext a
        rw [List.drop_drop, List.length_drop]
        have h3 : a.succ * 1000 = 1000 + a * 1000 := by
          rw [Nat.succ_mul]
          omega
        rw [h3]
        have h2 : (1000 + a * 1000 + 1000) ⊓ l.length - (1000 + a * 1000)
            = (a * 1000 + 1000) ⊓ (l.length - 1000) - a * 1000 := by
          omega
        rw [h2]
      rw [htail, ih2]
      simp only [Nat.zero_mul, List.drop_zero, Nat.sub_zero, Nat.zero_add]
      rcases Nat.le_total 1000 l.length with hle | hle
      · rw [Nat.min_eq_left hle, List.take_append_drop]
      · rw [Nat.min_eq_right hle, List.take_length,
            List.drop_eq_nil_of_le hle, List.append_nil]

/-- C9: `insert_into_dataset` returns its input frame unchanged, attempts
exactly `2 * ceil(N / 1000)` POSTs — for every outcome function, i.e. no
matter which POSTs fail — pairing every batch with both record kinds in
order, and its contiguous in-order batches concatenate back to the whole
frame. -/
theorem insert_into_dataset_spec (postOk : Nat → Bool → Bool) (rows : List MergedRow) :
    (insert_into_dataset postOk rows).2 = rows ∧
    (insert_into_dataset postOk rows).1.length = 2 * ((rows.length + 999) / 1000) ∧
    (insert_into_dataset postOk rows).1.map (fun e => (e.start_idx, e.kind)) =
      (pyRangeStep rows.length 1000).flatMap
        (fun s => [(s, RecKind.slide), (s, RecKind.thumb)]) ∧
    (pyRangeStep rows.length 1000).flatMap
      (fun s => (rows.drop s).take (min (s + 1000) rows.length - s)) = rows := by
  refine ⟨rfl, ?_, ?_, pyRangeStep_chunks rows.length rows le_rfl⟩
  · unfold insert_into_dataset
    rw [List.length_flatMap]
    have hconst : (List.map (List.length ∘ fun start =>
        let endIdx := min (start + 1000) rows.length
        let batch := (rows.drop start).take (endIdx - start)
        ([⟨start, endIdx, .slide, batch, postOk start false⟩,
          ⟨start, endIdx, .thumb, batch, postOk start true⟩] : List UploadEvent))
          (pyRangeStep rows.length 1000)).sum
        = ((pyRangeStep rows.length 1000).map (fun _ => (2 : Nat))).sum := rfl
    rw [hconst, sum_map_two]
    unfold pyRangeStep
    rw [List.length_map, List.length_range]
    omega
  · unfold insert_into_dataset
    rw [List.map_flatMap]
    rfl

/-- C1: when the slide table lacks a `thumbnail_path` column, the SDPC flag
is indeed forced on for the run, but the run does NOT complete: the path
rewrite stage reads the missing `thumbnail_path` column and raises
`KeyError`, `execute` catches it and returns the original descriptor —
nothing is published at all (evaluated at the failing input). -/
theorem execute_missing_thumb_col_aborts :
    slideNoThumb.hasThumbnailPath = false ∧
    execute defaultPathTransformer false worldNoThumbCol sampleValid = .ok ⟨false, sampleValid⟩ ∧
    data_processing defaultPathTransformer true (mergeTables diagT1 slideNoThumb) =
      .error .keyError :=
  ⟨rfl, rfl, rfl⟩

/-- C2 counterexample: a descriptor with a perfectly valid `.csv` `filePath`
still makes `execute` raise when loading the diagnosis CSV fails — the
`pd.read_csv` call is not wrapped in any `try`, so file-loading errors
propagate to the caller, refuting the claimed "raises only on malformed
`filePath`" contract. -/
theorem execute_read_error_propagates :
    validFilePath sampleValid ∧
    execute defaultPathTransformer false worldDiagReadFails sampleValid = .error .ioError :=
  ⟨⟨"dataset/source/diag.csv", rfl, by decide, by decide⟩, rfl⟩

/-- C2 (amended): `execute` raises for a missing/falsy, non-string or
non-`.csv` `filePath`; beyond that it also propagates any error from loading
either CSV or from listing the sibling directory (only the no-sibling
`IndexError` is caught). When the `filePath` is valid and those three
environment operations succeed, `execute` terminates normally with a
descriptor — data-processing and upload errors never propagate. -/
theorem execute_raise_contract (ptf : PyPath) (ig : Bool) (w : World) (s : Sample) :
    (¬ validFilePath s → ∃ e, execute ptf ig w s = .error e) ∧
    (validFilePath s →
      ∀ d fs st, w.diagnosisRead = .ok d → w.listdirResult = .ok fs →
        w.slideRead = .ok st → ∃ res, execute ptf ig w s = .ok res) := by
  constructor
  · intro hnv
    rcases hfp : s.filePath with _ | v
    · exact ⟨.valueError, by unfold execute; rw [hfp]⟩
    · cases v with
      | other b =>
        cases b with
        | false => exact ⟨.valueError, by unfold execute; rw [hfp]; rfl⟩
        | true => exact ⟨.typeError, by unfold execute; rw [hfp]; rfl⟩
      | str fp =>
        by_cases h0 : fp = ""
        · subst h0
          exact ⟨.valueError, by unfold execute; rw [hfp]; rfl⟩
        · have hcsv : pyEndsWith fp ".csv" = false := by
            by_contra hc
            exact hnv ⟨fp, hfp, h0, by simpa using hc⟩
          refine ⟨.valueError, ?_⟩
          unfold execute
          rw [hfp]
          simp [pyTruthy, h0, hcsv]
  · rintro ⟨fp, hfp, h0, hcsv⟩ d fs st hd hls hsr
    unfold execute
    rw [hfp, hd, hls, hsr]
    repeat' (first | dsimp only [] | split)
    all_goals (first | exact ⟨_, rfl⟩ | simp_all [pyTruthy])

/-- Witness for `execute_raise_contract`: both directions at concrete
inputs — a descriptor without `filePath` raises, a valid descriptor with a
healthy environment returns a result. -/
theorem execute_raise_contract_witness :
    (¬ validFilePath sampleNoFile) ∧
    (∃ e, execute defaultPathTransformer false worldOk sampleNoFile = .error e) ∧
    validFilePath sampleValid ∧
    (∃ res, execute defaultPathTransformer false worldOk sampleValid = .ok res) := by
  have hnv : ¬ validFilePath sampleNoFile := by
    rintro ⟨fp, hfp, -, -⟩
    simp [sampleNoFile, sampleValid] at hfp
  exact ⟨hnv,
    (execute_raise_contract defaultPathTransformer false worldOk sampleNoFile).1 hnv,
    ⟨"dataset/source/diag.csv", rfl, by decide, by decide⟩,
    (execute_raise_contract defaultPathTransformer false worldOk sampleValid).2
      ⟨"dataset/source/diag.csv", rfl, by decide, by decide⟩ _ _ _ rfl rfl rfl⟩

/-- C8: whenever `execute` terminates normally without having run the final
descriptor-update stage (any abort: missing table columns, no sibling file, a
data-processing exception, missing `export_path`), the returned descriptor is
the original input with no field modified. -/
theorem execute_abort_returns_original (ptf : PyPath) (ig : Bool) (w : World)
    (s sOut : Sample) (h : execute ptf ig w s = .ok ⟨false, sOut⟩) : sOut = s := by
  unfold execute at h
  repeat' (first | dsimp only [] at h | split at h)
  all_goals simp_all

/-- Witness for `execute_abort_returns_original`: a run aborting on a
diagnosis table with missing columns returns the untouched descriptor. -/
theorem execute_abort_returns_original_witness :
    execute defaultPathTransformer false worldDiagNoCols sampleValid = .ok ⟨false, sampleValid⟩ ∧
      sampleValid = sampleValid :=
  ⟨rfl, execute_abort_returns_original defaultPathTransformer false worldDiagNoCols
    sampleValid sampleValid rfl⟩
